import Mathlib

/-!
Verification of the bearings library (great-circle bearing-line intersections)
against its natural-language specification.  The Python sources are shallowly
embedded: real-number arithmetic stands in for IEEE floats, Option models
Python None, and Except models raised exceptions.  Division by zero follows
the Lean convention x / 0 = 0 (the concrete inputs used below never divide
by zero).
-/

namespace Bearings

open Real

open scoped Classical

/-! ## SafeMath (src/bearings/_safe_math.py) -/

/-- Modulo division that follows the sign of the divisor x.
Source: euclidean_modulo in _safe_math.py, y - (x * math.floor(y/x)). -/
noncomputable def euclidean_modulo (y x : ℝ) : ℝ := y - x * ⌊y / x⌋

/-- Source: asin_safe in _safe_math.py, math.asin(max(-1,min(x,1))). -/
noncomputable def asin_safe (x : ℝ) : ℝ := Real.arcsin (max (-1) (min x 1))

/-- Source: acos_safe in _safe_math.py, math.acos(max(-1,min(x,1))). -/
noncomputable def acos_safe (x : ℝ) : ℝ := Real.arccos (max (-1) (min x 1))

/-! helper lemmas about euclidean_modulo -/

lemma euclidean_modulo_eq_mul_fract (y x : ℝ) (hx : x ≠ 0) :
    euclidean_modulo y x = x * Int.fract (y / x) := by
  unfold euclidean_modulo Int.fract
  rw [mul_sub, mul_div_cancel₀ y hx]

lemma euclidean_modulo_nonneg (y x : ℝ) (hx : 0 < x) : 0 ≤ euclidean_modulo y x := by
  rw [euclidean_modulo_eq_mul_fract y x hx.ne']
  exact mul_nonneg hx.le (Int.fract_nonneg _)

lemma euclidean_modulo_lt (y x : ℝ) (hx : 0 < x) : euclidean_modulo y x < x := by
  rw [euclidean_modulo_eq_mul_fract y x hx.ne']
  calc x * Int.fract (y / x) < x * 1 := by
        exact mul_lt_mul_of_pos_left (Int.fract_lt_one _) hx
    _ = x := mul_one x

lemma euclidean_modulo_of_floor (y x : ℝ) (n : ℤ) (h : ⌊y / x⌋ = n) :
    euclidean_modulo y x = y - x * n := by
  unfold euclidean_modulo
  rw [h]

/-- Claim C8: for every dividend y and nonzero divisor x, euclidean_modulo(y, x)
equals y - x * floor(y / x); the result lies in [0, x) when x > 0 and in (x, 0]
when x < 0 (its sign matches the divisor); and euclidean_modulo(-1, 3) = 2. -/
theorem C8_euclidean_modulo_spec (y x : ℝ) (hx : x ≠ 0) :
    euclidean_modulo y x = y - x * ⌊y / x⌋ ∧
    (0 < x → 0 ≤ euclidean_modulo y x ∧ euclidean_modulo y x < x) ∧
    (x < 0 → x < euclidean_modulo y x ∧ euclidean_modulo y x ≤ 0) ∧
    euclidean_modulo (-1) 3 = 2 := by
  refine ⟨rfl, fun hpos => ⟨euclidean_modulo_nonneg y x hpos, euclidean_modulo_lt y x hpos⟩,
    fun hneg => ?_, ?_⟩
  · rw [euclidean_modulo_eq_mul_fract y x hx]
    constructor
    · calc x = x * 1 := (mul_one x).symm
        _ < x * Int.fract (y / x) := by
          exact mul_lt_mul_of_neg_left (Int.fract_lt_one _) hneg
    · exact mul_nonpos_of_nonpos_of_nonneg hneg.le (Int.fract_nonneg _)
  · have hfl : ⌊(-1 : ℝ) / 3⌋ = -1 := by
      rw [Int.floor_eq_iff]
      constructor <;> norm_num
    rw [euclidean_modulo_of_floor _ _ _ hfl]
    norm_num

/-- Witness for C8 at y = -1, x = 3. -/
theorem C8_euclidean_modulo_spec_witness :
    euclidean_modulo (-1) 3 = 2 ∧ 0 ≤ euclidean_modulo (-1) 3 ∧ euclidean_modulo (-1) 3 < 3 := by
  have h := C8_euclidean_modulo_spec (-1) 3 (by norm_num)
  exact ⟨h.2.2.2, (h.2.1 (by norm_num)).1, (h.2.1 (by norm_num)).2⟩

/-! helper lemmas about the clamp in asin_safe / acos_safe -/

lemma clamp_mem (x : ℝ) : -1 ≤ max (-1) (min x 1) ∧ max (-1) (min x 1) ≤ 1 :=
  ⟨le_max_left _ _, max_le (by norm_num) (min_le_right _ _)⟩

lemma clamp_of_one_lt (x : ℝ) (h : 1 < x) : max (-1) (min x 1) = 1 := by
  rw [min_eq_right h.le, max_eq_right (by norm_num : (-1 : ℝ) ≤ 1)]

lemma clamp_of_lt_neg_one (x : ℝ) (h : x < -1) : max (-1) (min x 1) = -1 := by
  rw [min_eq_left (by linarith : x ≤ 1), max_eq_left h.le]

lemma clamp_of_mem (x : ℝ) (h1 : -1 ≤ x) (h2 : x ≤ 1) : max (-1) (min x 1) = x := by
  rw [min_eq_left h2, max_eq_right h1]

/-- Claim C9: asin_safe and acos_safe always pass a value in [-1, 1] to the
underlying inverse trig function (so the domain-error branch is unreachable);
above 1 they evaluate at 1, below -1 they evaluate at -1; in particular
asin_safe(1.0000001) = pi/2 and acos_safe(-1.0000001) = pi. -/
theorem C9_safe_trig_spec :
    (∀ x : ℝ, (-1 ≤ max (-1) (min x 1) ∧ max (-1) (min x 1) ≤ 1) ∧
      (1 < x → asin_safe x = π / 2 ∧ acos_safe x = Real.arccos 1) ∧
      (x < -1 → asin_safe x = Real.arcsin (-1) ∧ acos_safe x = π)) ∧
    asin_safe (10000001 / 10000000) = π / 2 ∧
    acos_safe (-(10000001 / 10000000)) = π := by
  refine ⟨fun x => ⟨clamp_mem x, fun h => ?_, fun h => ?_⟩, ?_, ?_⟩
  · unfold asin_safe acos_safe
    rw [clamp_of_one_lt x h, Real.arcsin_one]
    exact ⟨rfl, rfl⟩
  · unfold asin_safe acos_safe
    rw [clamp_of_lt_neg_one x h, Real.arccos_neg_one]
    exact ⟨rfl, rfl⟩
  · unfold asin_safe
    rw [clamp_of_one_lt _ (by norm_num), Real.arcsin_one]
  · unfold acos_safe
    rw [clamp_of_lt_neg_one _ (by norm_num), Real.arccos_neg_one]

/-- Witness for C9 at x = 2 and x = -2. -/
theorem C9_safe_trig_spec_witness :
    asin_safe 2 = π / 2 ∧ acos_safe (-2) = π := by
  have h := C9_safe_trig_spec
  exact ⟨((h.1 2).2.1 (by norm_num)).1, ((h.1 (-2)).2.2 (by norm_num)).2⟩

/-! evaluation lemmas for asin_safe / acos_safe at in-range arguments -/

lemma asin_safe_of_mem (x : ℝ) (h1 : -1 ≤ x) (h2 : x ≤ 1) :
    asin_safe x = Real.arcsin x := by
  unfold asin_safe
  rw [clamp_of_mem x h1 h2]

lemma acos_safe_of_mem (x : ℝ) (h1 : -1 ≤ x) (h2 : x ≤ 1) :
    acos_safe x = Real.arccos x := by
  unfold acos_safe
  rw [clamp_of_mem x h1 h2]

lemma asin_safe_sin (t : ℝ) (h1 : -(π / 2) ≤ t) (h2 : t ≤ π / 2) :
    asin_safe (Real.sin t) = t := by
  rw [asin_safe_of_mem _ (neg_one_le_sin t) (sin_le_one t)]
  exact Real.arcsin_sin h1 h2

lemma acos_safe_cos (t : ℝ) (h1 : 0 ≤ t) (h2 : t ≤ π) :
    acos_safe (Real.cos t) = t := by
  rw [acos_safe_of_mem _ (neg_one_le_cos t) (cos_le_one t)]
  exact Real.arccos_cos h1 h2

lemma asin_safe_zero : asin_safe 0 = 0 := by
  rw [asin_safe_of_mem 0 (by norm_num) (by norm_num), Real.arcsin_zero]

lemma asin_safe_one : asin_safe 1 = π / 2 := by
  rw [asin_safe_of_mem 1 (by norm_num) (by norm_num), Real.arcsin_one]

lemma acos_safe_zero : acos_safe 0 = π / 2 := by
  rw [acos_safe_of_mem 0 (by norm_num) (by norm_num), Real.arccos_zero]

/-! ## Degree/radian conversion and Python primitives used by bearingline.py -/

/-- Source: math.radians. -/
noncomputable def radians (x : ℝ) : ℝ := x * π / 180

/-- Source: math.degrees. -/
noncomputable def degrees (x : ℝ) : ℝ := x * 180 / π

lemma radians_zero : radians 0 = 0 := by unfold radians; ring

lemma radians_ninety : radians 90 = π / 2 := by unfold radians; ring

lemma radians_sixty : radians 60 = π / 3 := by unfold radians; ring

lemma radians_inj (a b : ℝ) (h : radians a = radians b) : a = b := by
  unfold radians at h
  have hπ : π ≠ 0 := Real.pi_ne_zero
  field_simp at h
  rcases h with h | h
  · exact h
  · exact absurd h hπ

lemma degrees_zero : degrees 0 = 0 := by unfold degrees; ring

lemma degrees_pi_div_two : degrees (π / 2) = 90 := by
  unfold degrees
  field_simp
  ring

lemma degrees_le_degrees (a b : ℝ) (h : a ≤ b) : degrees a ≤ degrees b := by
  unfold degrees
  gcongr

/-- Source: math.atan2 (two-argument arctangent), modelled by the standard
piecewise definition; atan2 0 0 = 0 as in CPython. -/
noncomputable def atan2 (y x : ℝ) : ℝ :=
  if 0 < x then Real.arctan (y / x)
  else if x < 0 then
    (if 0 ≤ y then Real.arctan (y / x) + π else Real.arctan (y / x) - π)
  else
    (if 0 < y then π / 2 else if y < 0 then -(π / 2) else 0)

lemma atan2_zero_zero : atan2 0 0 = 0 := by
  unfold atan2
  norm_num

lemma atan2_zero_one : atan2 0 1 = 0 := by
  unfold atan2
  norm_num [Real.arctan_zero]

lemma atan2_pos_zero (y : ℝ) (hy : 0 < y) : atan2 y 0 = π / 2 := by
  unfold atan2
  rw [if_neg (by norm_num), if_neg (by norm_num), if_pos hy]

/-- Source: the built-in round(value, 5) used by _intersect; CPython rounds
half to even. roundEven is round-half-to-even to the nearest integer. -/
noncomputable def roundEven (x : ℝ) : ℤ :=
  if x - ⌊x⌋ < 1 / 2 then ⌊x⌋
  else if 1 / 2 < x - ⌊x⌋ then ⌊x⌋ + 1
  else if Even ⌊x⌋ then ⌊x⌋ else ⌊x⌋ + 1

/-- round(value, 5): round-half-even at the fifth decimal place. -/
noncomputable def round5 (x : ℝ) : ℝ := (roundEven (x * 100000) : ℝ) / 100000

lemma roundEven_intCast (n : ℤ) : roundEven (n : ℝ) = n := by
  unfold roundEven
  rw [Int.floor_intCast]
  norm_num

lemma roundEven_le (x : ℝ) (B : ℤ) (h : x ≤ B) : roundEven x ≤ B := by
  have hfl : ⌊x⌋ ≤ B := (Int.floor_mono h).trans_eq (Int.floor_intCast B)
  have hflR : (⌊x⌋ : ℝ) ≤ x := Int.floor_le x
  unfold roundEven
  split_ifs with h1 h2 h3
  · exact hfl
  · -- the fractional part exceeds one half, so the floor is below B
    have hlt : ⌊x⌋ < B := by
      rcases lt_or_eq_of_le hfl with hlt | heq
      · exact hlt
      · exfalso
        have hxB : (⌊x⌋ : ℝ) = (B : ℝ) := by exact_mod_cast heq
        linarith
    exact Int.add_one_le_iff.mpr hlt
  · exact hfl
  · -- exact half with odd floor: x = floor + 1/2 <= B forces floor < B
    have hhalf : x - ⌊x⌋ = 1 / 2 := le_antisymm (not_lt.mp h2) (not_lt.mp h1)
    have hlt : ⌊x⌋ < B := by
      rcases lt_or_eq_of_le hfl with hlt | heq
      · exact hlt
      · exfalso
        have hxB : (⌊x⌋ : ℝ) = (B : ℝ) := by exact_mod_cast heq
        linarith
    exact Int.add_one_le_iff.mpr hlt

lemma floor_le_roundEven (x : ℝ) : ⌊x⌋ ≤ roundEven x := by
  unfold roundEven
  split_ifs
  · exact le_rfl
  · exact (lt_add_one _).le
  · exact le_rfl
  · exact (lt_add_one _).le

lemma roundEven_ge (x : ℝ) (B : ℤ) (h : (B : ℝ) ≤ x) : B ≤ roundEven x :=
  le_trans (Int.le_floor.mpr h) (floor_le_roundEven x)

lemma round5_le (x : ℝ) (B : ℤ) (h : x ≤ B) : round5 x ≤ B := by
  unfold round5
  rw [div_le_iff₀ (by norm_num : (0 : ℝ) < 100000)]
  have hb : x * 100000 ≤ ((B * 100000 : ℤ) : ℝ) := by
    push_cast
    nlinarith
  have := roundEven_le (x * 100000) (B * 100000) hb
  calc (roundEven (x * 100000) : ℝ) ≤ ((B * 100000 : ℤ) : ℝ) := by exact_mod_cast this
    _ = (B : ℝ) * 100000 := by push_cast; ring

lemma round5_ge (x : ℝ) (B : ℤ) (h : (B : ℝ) ≤ x) : (B : ℝ) ≤ round5 x := by
  unfold round5
  rw [le_div_iff₀ (by norm_num : (0 : ℝ) < 100000)]
  have hb : ((B * 100000 : ℤ) : ℝ) ≤ x * 100000 := by
    push_cast
    nlinarith
  have := roundEven_ge (x * 100000) (B * 100000) hb
  calc (B : ℝ) * 100000 = ((B * 100000 : ℤ) : ℝ) := by push_cast; ring
    _ ≤ (roundEven (x * 100000) : ℝ) := by exact_mod_cast this

lemma round5_zero : round5 0 = 0 := by
  unfold round5
  have h : (0 : ℝ) * 100000 = ((0 : ℤ) : ℝ) := by norm_num
  rw [h, roundEven_intCast]
  norm_num

lemma round5_ninety : round5 90 = 90 := by
  unfold round5
  have h : (90 : ℝ) * 100000 = ((9000000 : ℤ) : ℝ) := by norm_num
  rw [h, roundEven_intCast]
  norm_num

/-! ## Point (src/bearings/point.py) -/

/-- A point on the earth, latitude and longitude in decimal degrees. -/
structure Point where
  latitude : ℝ
  longitude : ℝ

/-- Validation errors raised by the Point / BearingLine property setters
(TypeError cases are unrepresentable here because the embedding is typed). -/
inductive FieldError where
  | latitudeRange
  | longitudeRange
  | bearingRange
  | declinationRange
  deriving DecidableEq

/-- Point construction with the setter validation from point.py. -/
noncomputable def mkPoint (latitude longitude : ℝ) : Except FieldError Point :=
  if ¬(-90 ≤ latitude ∧ latitude ≤ 90) then .error .latitudeRange
  else if ¬(-180 ≤ longitude ∧ longitude ≤ 180) then .error .longitudeRange
  else .ok ⟨latitude, longitude⟩

/-! ## BearingLine data model (src/bearings/bearingline.py) -/

/-- The validated fields of a BearingLine. -/
structure BearingLine where
  latitude : ℝ
  longitude : ℝ
  bearing : ℝ
  declination : ℝ

/-- BearingLine construction: the setters run in the order latitude,
longitude, bearing, declination, each raising on its range check.
Source checks: -90 <= lat <= 90, -180 <= lon <= 180, 0 <= bearing <= 360,
-180 <= declination <= 180. -/
noncomputable def mkBearingLine (latitude longitude bearing declination : ℝ) :
    Except FieldError BearingLine :=
  if ¬(-90 ≤ latitude ∧ latitude ≤ 90) then .error .latitudeRange
  else if ¬(-180 ≤ longitude ∧ longitude ≤ 180) then .error .longitudeRange
  else if ¬(0 ≤ bearing ∧ bearing ≤ 360) then .error .bearingRange
  else if ¬(-180 ≤ declination ∧ declination ≤ 180) then .error .declinationRange
  else .ok ⟨latitude, longitude, bearing, declination⟩

/-- Source attribute latitude_radians. -/
noncomputable def latitude_radians (b : BearingLine) : ℝ := radians b.latitude

/-- Source attribute longitude_radians. -/
noncomputable def longitude_radians (b : BearingLine) : ℝ := radians b.longitude

/-- Source attribute true_bearing = bearing + declination. -/
noncomputable def true_bearing (b : BearingLine) : ℝ := b.bearing + b.declination

/-- Source attribute true_bearing_radians. -/
noncomputable def true_bearing_radians (b : BearingLine) : ℝ := radians (true_bearing b)

/-- Claim C6 counterexample input: bearing = 360 passes the setter check
0 <= value <= 360, refuting that construction fails at 360. -/
theorem C6_counterexample :
    mkBearingLine 0 0 360 0 = .ok ⟨0, 0, 360, 0⟩ := by
  unfold mkBearingLine
  norm_num

/-- Claim C6 (amended): with valid latitude, longitude and declination,
BearingLine construction succeeds exactly for bearings in the closed
interval [0, 360]; bearing = 360 is accepted, values outside fail. -/
theorem C6_bearing_validation (latitude longitude bearing declination : ℝ)
    (hlat : -90 ≤ latitude ∧ latitude ≤ 90)
    (hlon : -180 ≤ longitude ∧ longitude ≤ 180)
    (hdec : -180 ≤ declination ∧ declination ≤ 180) :
    (∃ b, mkBearingLine latitude longitude bearing declination = .ok b) ↔
      (0 ≤ bearing ∧ bearing ≤ 360) := by
  unfold mkBearingLine
  rw [if_neg (by simpa using hlat), if_neg (by simpa using hlon)]
  constructor
  · rintro ⟨b, hb⟩
    by_contra hcon
    rw [if_pos hcon] at hb
    exact Except.noConfusion hb
  · intro hb
    rw [if_neg (by simpa using hb), if_neg (by simpa using hdec)]
    exact ⟨_, rfl⟩

/-- Witness for C6 at latitude 0, longitude 0, bearing 0, declination 0. -/
theorem C6_bearing_validation_witness :
    ∃ b, mkBearingLine 0 0 0 0 = .ok b :=
  (C6_bearing_validation 0 0 0 0 (by norm_num) (by norm_num) (by norm_num)).mpr
    (by norm_num)

/-! ## bounding_box (src/bearings/geo_helpers.py) -/

/-- Errors arising in bounding_box.  minEmptySequence models the ValueError
the Python builtin min raises on an empty sequence.  ambiguousBox models
AmbiguousBoxError from the errors module.  emptyInput is Modelled from the
spec: the spec names an EmptyInputError, but no such class exists anywhere
in the source (the errors module defines only IdenticalInputPointError,
ProbableDivergenceError, AmbiguousIntersectionError, InfiniteIntersectionError
and AmbiguousBoxError), so the constructor exists only to state the claim. -/
inductive BoxError where
  | minEmptySequence
  | ambiguousBox
  | emptyInput
  deriving DecidableEq

/-- Python min over a nonempty list, raising ValueError on an empty one. -/
noncomputable def pymin : List ℝ → Except BoxError ℝ
  | [] => .error .minEmptySequence
  | x :: xs => .ok (xs.foldl min x)

/-- Python max over a nonempty list, raising ValueError on an empty one. -/
noncomputable def pymax : List ℝ → Except BoxError ℝ
  | [] => .error .minEmptySequence
  | x :: xs => .ok (xs.foldl max x)

/-- Source: bounding_box in geo_helpers.py.  Computes min/max of the
longitudes first (as the source does), then latitudes, and raises
AmbiguousBoxError when either axis is degenerate. -/
noncomputable def bounding_box (point_list : List Point) :
    Except BoxError (ℝ × ℝ × ℝ × ℝ) := do
  let latitudes := point_list.map Point.latitude
  let longitudes := point_list.map Point.longitude
  let min_lon ← pymin longitudes
  let max_lon ← pymax longitudes
  let min_lat ← pymin latitudes
  let max_lat ← pymax latitudes
  if min_lon = max_lon ∨ min_lat = max_lat then .error .ambiguousBox
  else .ok (min_lon, max_lon, min_lat, max_lat)

/-- Claim C7 counterexample: on the empty list, bounding_box fails with the
builtin ValueError from min over an empty sequence, not with the
EmptyInputError the spec names (which does not exist in the code). -/
theorem C7_counterexample :
    bounding_box [] = .error .minEmptySequence ∧
      BoxError.minEmptySequence ≠ BoxError.emptyInput := by
  constructor
  · rfl
  · intro h
    exact BoxError.noConfusion h

/-- Claim C7 (amended): calling bounding_box on an empty collection of
Points fails (it never returns a box), but with the builtin ValueError
raised by min on an empty sequence; the code defines no EmptyInputError. -/
theorem C7_bounding_box_empty :
    bounding_box [] = .error .minEmptySequence := rfl

/-! ## get_haversine_distance (src/bearings/bearingline.py) -/

/-- The outcomes of BearingLine.get_haversine_distance other than a
returned distance.  typeError / valueError come from the explicit
isinstance and range checks, the two syntaxError constructors from the
explicit SyntaxError raises, and unboundLocal models the
UnboundLocalError hit when execution falls through every branch and
reads the never-assigned local lat1. -/
inductive DistError where
  | typeError
  | valueError
  | syntaxErrorNoArgs
  | syntaxErrorTooMany
  | unboundLocal
  deriving DecidableEq

/-- The haversine body shared by both successful branches: radius 6371 km,
h clamped to at most 1, distance = 2 * radius * asin(sqrt(h)).
Inputs are already in radians. -/
noncomputable def haversineKm (lat1 lon1 lat2 lon2 : ℝ) : ℝ :=
  2 * 6371 * Real.arcsin (Real.sqrt (min 1
    ((Real.sin ((lat2 - lat1) / 2)) ^ 2 +
      Real.cos lat1 * Real.cos lat2 * (Real.sin ((lon2 - lon1) / 2)) ^ 2)))

/-- Distance from the root point of a BearingLine to an explicit point
given in degrees (the body of the first branch after validation). -/
noncomputable def origin_to_point_distance (b : BearingLine) (lat2 lon2 : ℝ) : ℝ :=
  haversineKm (latitude_radians b) (longitude_radians b) (radians lat2) (radians lon2)

/-- Distance between the root points of two BearingLines (the body of the
second branch). -/
noncomputable def origin_to_origin_distance (b other : BearingLine) : ℝ :=
  haversineKm (latitude_radians b) (longitude_radians b)
    (latitude_radians other) (longitude_radians other)

/-- Source: BearingLine.get_haversine_distance(lat2, lon2, other), with its
four-way argument-shape dispatch.  None of the four guards covers the shape
where other is passed together with exactly one of lat2/lon2; there the
Python function falls through to the formula and dies reading the unbound
local lat1, modelled as the unboundLocal outcome. -/
noncomputable def get_haversine_distance (self : BearingLine)
    (lat2 lon2 : Option ℝ) (other : Option BearingLine) : Except DistError ℝ :=
  if other = none ∧ ¬(lat2 = none ∧ lon2 = none) then
    match lat2, lon2 with
    | some la, some lo =>
        if ¬((-90 ≤ la ∧ la ≤ 90) ∧ (-180 ≤ lo ∧ lo ≤ 180)) then .error .valueError
        else .ok (origin_to_point_distance self la lo)
    | _, _ => .error .typeError
  else if other ≠ none ∧ (lat2 = none ∧ lon2 = none) then
    match other with
    | some o => .ok (origin_to_origin_distance self o)
    | none => .error .typeError
  else if other = none ∧ lat2 = none ∧ lon2 = none then .error .syntaxErrorNoArgs
  else if other ≠ none ∧ lat2 ≠ none ∧ lon2 ≠ none then .error .syntaxErrorTooMany
  else .error .unboundLocal

/-- Claim C10: get_haversine_distance hits the unbound-local fall-through
exactly when other is supplied together with exactly one of lat2/lon2;
every other argument shape is handled by one of the four guards (computing
the distance or raising a type, value or argument-shape error first). -/
theorem C10_dispatch_fallthrough (self : BearingLine)
    (lat2 lon2 : Option ℝ) (other : Option BearingLine) :
    get_haversine_distance self lat2 lon2 other = .error .unboundLocal ↔
      (other ≠ none ∧ ((lat2 = none ∧ lon2 ≠ none) ∨ (lat2 ≠ none ∧ lon2 = none))) := by
  rcases other with _ | o <;> rcases lat2 with _ | la <;> rcases lon2 with _ | lo <;>
      simp [get_haversine_distance] <;>
    split_ifs <;> simp_all

/-! ## The raw intersection solver BearingLine._intersect
(src/bearings/bearingline.py).  The formula works with west-positive
longitudes, so the sign of every longitude is flipped on input and the
output longitude is negated again.  lat1/lon1/crs13 come from the first
line, lat2/lon2/crs23 from the second. -/

/-- Errors raised by the raw solver. -/
inductive IntersectError where
  | identicalInputPoint
  | infiniteIntersection
  | ambiguousIntersection
  deriving DecidableEq

/-- dst12: angular distance between the two origins. -/
noncomputable def dst12 (b1 b2 : BearingLine) : ℝ :=
  2 * asin_safe (Real.sqrt
    ((Real.sin ((latitude_radians b1 - latitude_radians b2) / 2)) ^ 2 +
      Real.cos (latitude_radians b1) * Real.cos (latitude_radians b2) *
        (Real.sin ((-(longitude_radians b1) - -(longitude_radians b2)) / 2)) ^ 2))

/-- crs12: initial course from origin 1 to origin 2, the branch chosen by
the sign of sin(lon2 - lon1). -/
noncomputable def crs12 (b1 b2 : BearingLine) : ℝ :=
  if Real.sin (-(longitude_radians b2) - -(longitude_radians b1)) < 0 then
    acos_safe ((Real.sin (latitude_radians b2) -
        Real.sin (latitude_radians b1) * Real.cos (dst12 b1 b2)) /
      (Real.sin (dst12 b1 b2) * Real.cos (latitude_radians b1)))
  else
    2 * π - acos_safe ((Real.sin (latitude_radians b2) -
        Real.sin (latitude_radians b1) * Real.cos (dst12 b1 b2)) /
      (Real.sin (dst12 b1 b2) * Real.cos (latitude_radians b1)))

/-- crs21: initial course from origin 2 to origin 1. -/
noncomputable def crs21 (b1 b2 : BearingLine) : ℝ :=
  if Real.sin (-(longitude_radians b2) - -(longitude_radians b1)) < 0 then
    2 * π - acos_safe ((Real.sin (latitude_radians b1) -
        Real.sin (latitude_radians b2) * Real.cos (dst12 b1 b2)) /
      (Real.sin (dst12 b1 b2) * Real.cos (latitude_radians b2)))
  else
    acos_safe ((Real.sin (latitude_radians b1) -
        Real.sin (latitude_radians b2) * Real.cos (dst12 b1 b2)) /
      (Real.sin (dst12 b1 b2) * Real.cos (latitude_radians b2)))

/-- ang1: angle between line 1 and the connecting geodesic, in (-pi, pi]. -/
noncomputable def ang1 (b1 b2 : BearingLine) : ℝ :=
  euclidean_modulo (true_bearing_radians b1 - crs12 b1 b2 + π) (2 * π) - π

/-- ang2: angle between the connecting geodesic and line 2, in (-pi, pi]. -/
noncomputable def ang2 (b1 b2 : BearingLine) : ℝ :=
  euclidean_modulo (crs21 b1 b2 - true_bearing_radians b2 + π) (2 * π) - π

/-- ang3: third angle of the spherical triangle (after taking absolute
values of ang1 and ang2). -/
noncomputable def ang3 (b1 b2 : BearingLine) : ℝ :=
  acos_safe (-Real.cos |ang1 b1 b2| * Real.cos |ang2 b1 b2| +
    Real.sin |ang1 b1 b2| * Real.sin |ang2 b1 b2| * Real.cos (dst12 b1 b2))

/-- dst13: angular distance from origin 1 to the intersection. -/
noncomputable def dst13 (b1 b2 : BearingLine) : ℝ :=
  atan2 (Real.sin (dst12 b1 b2) * Real.sin |ang1 b1 b2| * Real.sin |ang2 b1 b2|)
    (Real.cos |ang2 b1 b2| + Real.cos |ang1 b1 b2| * Real.cos (ang3 b1 b2))

/-- lat3: latitude of the intersection, in radians. -/
noncomputable def lat3 (b1 b2 : BearingLine) : ℝ :=
  asin_safe (Real.sin (latitude_radians b1) * Real.cos (dst13 b1 b2) +
    Real.cos (latitude_radians b1) * Real.sin (dst13 b1 b2) *
      Real.cos (true_bearing_radians b1))

/-- dlon: longitude offset of the intersection from origin 1. -/
noncomputable def dlon (b1 b2 : BearingLine) : ℝ :=
  atan2 (Real.sin (true_bearing_radians b1) * Real.sin (dst13 b1 b2) *
      Real.cos (latitude_radians b1))
    (Real.cos (dst13 b1 b2) - Real.sin (latitude_radians b1) * Real.sin (lat3 b1 b2))

/-- lon3: longitude of the intersection in radians, west-positive. -/
noncomputable def lon3 (b1 b2 : BearingLine) : ℝ :=
  euclidean_modulo (-(longitude_radians b1) - dlon b1 b2 + π) (2 * π) - π

/-- The successful output of the solver: degrees, each coordinate rounded
to 5 decimal places, the longitude sign flipped back to east-positive. -/
noncomputable def intersectCoords (b1 b2 : BearingLine) : ℝ × ℝ :=
  (round5 (degrees (lat3 b1 b2)), round5 (degrees (-(lon3 b1 b2))))

/-- The identical-origins guard of the solver: both radian latitudes and
both (sign-flipped) radian longitudes compare equal. -/
def identicalOrigins (b1 b2 : BearingLine) : Prop :=
  latitude_radians b1 = latitude_radians b2 ∧
    -(longitude_radians b1) = -(longitude_radians b2)

/-- Source: BearingLine._intersect(other, suppress_errors).  Returns the
rounded coordinate pair, or None when an error is suppressed, or raises. -/
noncomputable def _intersect (b1 b2 : BearingLine) (suppress_errors : Bool) :
    Except IntersectError (Option (ℝ × ℝ)) :=
  if identicalOrigins b1 b2 then
    (if suppress_errors then .ok none else .error .identicalInputPoint)
  else if Real.sin (ang1 b1 b2) = 0 ∧ Real.sin (ang2 b1 b2) = 0 then
    (if suppress_errors then .ok none else .error .infiniteIntersection)
  else if Real.sin (ang1 b1 b2) * Real.sin (ang2 b1 b2) < 0 then
    (if suppress_errors then .ok none else .error .ambiguousIntersection)
  else .ok (some (intersectCoords b1 b2))

/-- Claim C1: for distinct-origin inputs the solver checks degeneracy in
this order: both sines exactly zero gives InfiniteIntersectionError (or no
result when suppressed); otherwise a negative product of the sines gives
AmbiguousIntersectionError (or no result when suppressed); otherwise it
computes the intersection. -/
theorem C1_degeneracy_order (b1 b2 : BearingLine) (suppress_errors : Bool)
    (h : ¬identicalOrigins b1 b2) :
    _intersect b1 b2 suppress_errors =
      if Real.sin (ang1 b1 b2) = 0 ∧ Real.sin (ang2 b1 b2) = 0 then
        (if suppress_errors then .ok none else .error .infiniteIntersection)
      else if Real.sin (ang1 b1 b2) * Real.sin (ang2 b1 b2) < 0 then
        (if suppress_errors then .ok none else .error .ambiguousIntersection)
      else .ok (some (intersectCoords b1 b2)) := by
  unfold _intersect
  rw [if_neg h]

/-- Claim C2: identical origins (equal radian latitudes and longitudes)
raise IdenticalInputPointError unless suppressed (then None); distinct
origins never produce that error. -/
theorem C2_identical_origins (b1 b2 : BearingLine) (suppress_errors : Bool) :
    (latitude_radians b1 = latitude_radians b2 ∧
        longitude_radians b1 = longitude_radians b2 →
      _intersect b1 b2 suppress_errors =
        (if suppress_errors then .ok none else .error .identicalInputPoint)) ∧
    (¬(latitude_radians b1 = latitude_radians b2 ∧
        longitude_radians b1 = longitude_radians b2) →
      _intersect b1 b2 suppress_errors ≠ .error .identicalInputPoint) := by
  have hiff : identicalOrigins b1 b2 ↔
      (latitude_radians b1 = latitude_radians b2 ∧
        longitude_radians b1 = longitude_radians b2) := by
    unfold identicalOrigins
    constructor
    · rintro ⟨h1, h2⟩
      exact ⟨h1, neg_inj.mp h2⟩
    · rintro ⟨h1, h2⟩
      exact ⟨h1, by rw [h2]⟩
  constructor
  · intro h
    unfold _intersect
    rw [if_pos (hiff.mpr h)]
  · intro h
    unfold _intersect
    rw [if_neg (fun hc => h (hiff.mp hc))]
    split_ifs <;> simp

/-- Inversion: a successful raw solver result is exactly the rounded
intersection coordinates. -/
lemma _intersect_ok_inv (b1 b2 : BearingLine) (suppress_errors : Bool) (la lo : ℝ)
    (h : _intersect b1 b2 suppress_errors = .ok (some (la, lo))) :
    la = round5 (degrees (lat3 b1 b2)) ∧ lo = round5 (degrees (-(lon3 b1 b2))) := by
  unfold _intersect at h
  split_ifs at h <;> simp_all [intersectCoords]

/-- Bounds on the raw solver output: the rounded latitude lies in
[-90, 90] and the rounded longitude in [-180, 180], so the range
validation inside get_haversine_distance always passes on it. -/
lemma _intersect_ok_ranges (b1 b2 : BearingLine) (suppress_errors : Bool) (la lo : ℝ)
    (h : _intersect b1 b2 suppress_errors = .ok (some (la, lo))) :
    (-90 ≤ la ∧ la ≤ 90) ∧ (-180 ≤ lo ∧ lo ≤ 180) := by
  obtain ⟨hla, hlo⟩ := _intersect_ok_inv b1 b2 suppress_errors la lo h
  have hπ : (0 : ℝ) < π := Real.pi_pos
  -- latitude: lat3 is an arcsin value, so it lies in [-pi/2, pi/2]
  have hlat_hi : lat3 b1 b2 ≤ π / 2 := Real.arcsin_le_pi_div_two _
  have hlat_lo : -(π / 2) ≤ lat3 b1 b2 := Real.neg_pi_div_two_le_arcsin _
  have hdeg_hi : degrees (lat3 b1 b2) ≤ 90 := by
    have := degrees_le_degrees _ _ hlat_hi
    rwa [degrees_pi_div_two] at this
  have hdeg_lo : (-90 : ℝ) ≤ degrees (lat3 b1 b2) := by
    have := degrees_le_degrees _ _ hlat_lo
    have hneg : degrees (-(π / 2)) = -90 := by
      unfold degrees
      field_simp
      ring
    rwa [hneg] at this
  -- longitude: lon3 = euclidean_modulo(..., 2 pi) - pi lies in [-pi, pi)
  have h2π : (0 : ℝ) < 2 * π := by linarith
  have hm0 : 0 ≤ euclidean_modulo (-(longitude_radians b1) - dlon b1 b2 + π) (2 * π) :=
    euclidean_modulo_nonneg _ _ h2π
  have hm1 : euclidean_modulo (-(longitude_radians b1) - dlon b1 b2 + π) (2 * π) < 2 * π :=
    euclidean_modulo_lt _ _ h2π
  have hlon_lo : -π ≤ -(lon3 b1 b2) := by
    unfold lon3
    linarith
  have hlon_hi : -(lon3 b1 b2) ≤ π := by
    unfold lon3
    linarith
  have hdlon_hi : degrees (-(lon3 b1 b2)) ≤ 180 := by
    have := degrees_le_degrees _ _ hlon_hi
    have hpi : degrees π = 180 := by
      unfold degrees
      field_simp
    rwa [hpi] at this
  have hdlon_lo : (-180 : ℝ) ≤ degrees (-(lon3 b1 b2)) := by
    have := degrees_le_degrees _ _ hlon_lo
    have hpi : degrees (-π) = -180 := by
      unfold degrees
      field_simp
      ring
    rwa [hpi] at this
  subst hla hlo
  refine ⟨⟨?_, ?_⟩, ?_, ?_⟩
  · have := round5_ge (degrees (lat3 b1 b2)) (-90) (by exact_mod_cast hdeg_lo)
    exact_mod_cast this
  · have := round5_le (degrees (lat3 b1 b2)) 90 (by exact_mod_cast hdeg_hi)
    exact_mod_cast this
  · have := round5_ge (degrees (-(lon3 b1 b2))) (-180) (by exact_mod_cast hdlon_lo)
    exact_mod_cast this
  · have := round5_le (degrees (-(lon3 b1 b2))) 180 (by exact_mod_cast hdlon_hi)
    exact_mod_cast this

/-- The first-branch dispatch of get_haversine_distance succeeds on
coordinates inside the validation ranges. -/
lemma get_haversine_distance_coords (self : BearingLine) (la lo : ℝ)
    (hla : -90 ≤ la ∧ la ≤ 90) (hlo : -180 ≤ lo ∧ lo ≤ 180) :
    get_haversine_distance self (some la) (some lo) none =
      .ok (origin_to_point_distance self la lo) := by
  unfold get_haversine_distance
  rw [if_pos (by simp)]
  simp only
  rw [if_neg (not_not_intro ⟨hla, hlo⟩)]

/-- The second-branch dispatch of get_haversine_distance. -/
lemma get_haversine_distance_other (self o : BearingLine) :
    get_haversine_distance self none none (some o) =
      .ok (origin_to_origin_distance self o) := by
  unfold get_haversine_distance
  rw [if_neg (by simp), if_pos (by simp)]

/-! ## The policy layer BearingLine.get_intersect
(src/bearings/bearingline.py). -/

/-- A successful get_intersect value.  The Python method returns either the
raw coordinate tuple from _intersect (the early return taken when no policy
flag is truthy) or a Point object (the final return of the policy path);
the two are distinct runtime types, so the model keeps them apart. -/
inductive GVal where
  | tup (latitude longitude : ℝ)
  | pt (latitude longitude : ℝ)

/-- Whether a get_intersect result value is a Point object. -/
def GVal.isPt : GVal → Bool
  | .tup _ _ => false
  | .pt _ _ => true

/-- Exceptions escaping get_intersect: errors propagated from the raw
solver, ProbableDivergenceError from the policy layer, and any error from
the nested get_haversine_distance calls. -/
inductive PolicyError where
  | raw (e : IntersectError)
  | probableDivergence
  | dist (e : DistError)

/-- Python truthiness of the suppress_greater_than argument inside
any([...]): None and 0 are falsy, every other number is truthy. -/
def sgtTruthy : Option ℝ → Prop
  | none => False
  | some c => c ≠ 0

/-- The test not any([warn_probable_divergence, suppress_probable_divergence,
suppress_greater_than]) from get_intersect, negated. -/
def anyFlag (warn_probable_divergence suppress_probable_divergence : Bool)
    (suppress_greater_than : Option ℝ) : Prop :=
  warn_probable_divergence = true ∨ suppress_probable_divergence = true ∨
    sgtTruthy suppress_greater_than

/-- Source: BearingLine.get_intersect.  Calls the raw solver with
suppress_errors = ignore_errors, returns the raw tuple (or None) untouched
when no policy flag is truthy, and otherwise measures the three haversine
distances and applies the range cap and the probable-divergence heuristic
before returning a Point. -/
noncomputable def get_intersect (b1 b2 : BearingLine)
    (warn_probable_divergence suppress_probable_divergence : Bool)
    (suppress_greater_than : Option ℝ) (ignore_errors : Bool) :
    Except PolicyError (Option GVal) :=
  match _intersect b1 b2 ignore_errors with
  | .error e => .error (.raw e)
  | .ok intersection =>
    if ¬anyFlag warn_probable_divergence suppress_probable_divergence
        suppress_greater_than then
      .ok (intersection.map fun p => GVal.tup p.1 p.2)
    else
      match intersection with
      | none => .ok none
      | some (la, lo) =>
        match get_haversine_distance b1 (some la) (some lo) none with
        | .error e => .error (.dist e)
        | .ok this_point_to_intersect =>
          match get_haversine_distance b2 (some la) (some lo) none with
          | .error e => .error (.dist e)
          | .ok other_point_to_intersect =>
            match get_haversine_distance b1 none none (some b2) with
            | .error e => .error (.dist e)
            | .ok this_point_to_other =>
              if (∃ c, suppress_greater_than = some c ∧
                  max this_point_to_intersect other_point_to_intersect > c) then
                .ok none
              else if this_point_to_intersect > 10000 ∧
                  other_point_to_intersect > 10000 ∧
                  this_point_to_other < 10000 then
                (if suppress_probable_divergence then .ok none
                 else if warn_probable_divergence then .error .probableDivergence
                 else .ok (some (.pt la lo)))
              else .ok (some (.pt la lo))

/-- Claim C4 (amended): when the raw solver produced an intersection and
suppress_greater_than carries a numeric value, exceeding the cap with the
larger origin-to-intersection distance yields no result (None) — provided
the policy layer runs at all, i.e. the cap is nonzero or one of the
divergence flags is set (0 is falsy inside any([...]), so a zero cap with
both divergence flags clear bypasses the policy layer entirely). -/
theorem C4_range_cap (b1 b2 : BearingLine)
    (warn_probable_divergence suppress_probable_divergence : Bool)
    (c : ℝ) (ignore_errors : Bool) (la lo : ℝ)
    (hraw : _intersect b1 b2 ignore_errors = .ok (some (la, lo)))
    (hactive : c ≠ 0 ∨ warn_probable_divergence = true ∨
      suppress_probable_divergence = true)
    (hcap : max (origin_to_point_distance b1 la lo)
        (origin_to_point_distance b2 la lo) > c) :
    get_intersect b1 b2 warn_probable_divergence suppress_probable_divergence
      (some c) ignore_errors = .ok none := by
  have hranges := _intersect_ok_ranges b1 b2 ignore_errors la lo hraw
  have hd1 := get_haversine_distance_coords b1 la lo hranges.1 hranges.2
  have hd2 := get_haversine_distance_coords b2 la lo hranges.1 hranges.2
  have hd12 := get_haversine_distance_other b1 b2
  have hflag : anyFlag warn_probable_divergence suppress_probable_divergence (some c) := by
    rcases hactive with h | h | h
    · exact Or.inr (Or.inr h)
    · exact Or.inl h
    · exact Or.inr (Or.inl h)
  unfold get_intersect
  rw [hraw]
  simp only
  rw [if_neg (not_not_intro hflag)]
  simp only [hd1, hd2, hd12]
  rw [if_pos ⟨c, rfl, hcap⟩]

/-- Claim C5 (amended): if the raw intersection exists, the range cap does
not fire and the probable-divergence heuristic holds (both
origin-to-intersection distances above 10000 km and origin separation
under 10000 km), then get_intersect returns no result when
suppress_probable_divergence is set, raises ProbableDivergenceError when
warn_probable_divergence is set without suppression, and otherwise returns
the intersection — as a Point when some policy flag is truthy, and as the
raw coordinate tuple when no flag is truthy (the policy layer, heuristic
included, is skipped in that case).  Conversely ProbableDivergenceError
escapes only with warn set, suppression clear, a raw intersection, no cap
hit, and the heuristic satisfied. -/
theorem C5_probable_divergence :
    (∀ (b1 b2 : BearingLine)
      (warn_probable_divergence suppress_probable_divergence : Bool)
      (suppress_greater_than : Option ℝ) (ignore_errors : Bool) (la lo : ℝ),
      _intersect b1 b2 ignore_errors = .ok (some (la, lo)) →
      ¬(∃ c, suppress_greater_than = some c ∧
        max (origin_to_point_distance b1 la lo)
          (origin_to_point_distance b2 la lo) > c) →
      (origin_to_point_distance b1 la lo > 10000 ∧
        origin_to_point_distance b2 la lo > 10000 ∧
        origin_to_origin_distance b1 b2 < 10000) →
      get_intersect b1 b2 warn_probable_divergence suppress_probable_divergence
          suppress_greater_than ignore_errors =
        if suppress_probable_divergence = true then .ok none
        else if warn_probable_divergence = true then .error .probableDivergence
        else if anyFlag warn_probable_divergence suppress_probable_divergence
            suppress_greater_than then .ok (some (.pt la lo))
        else .ok (some (.tup la lo))) ∧
    (∀ (b1 b2 : BearingLine)
      (warn_probable_divergence suppress_probable_divergence : Bool)
      (suppress_greater_than : Option ℝ) (ignore_errors : Bool),
      get_intersect b1 b2 warn_probable_divergence suppress_probable_divergence
          suppress_greater_than ignore_errors = .error .probableDivergence →
      warn_probable_divergence = true ∧ suppress_probable_divergence = false ∧
      ∃ la lo, _intersect b1 b2 ignore_errors = .ok (some (la, lo)) ∧
        ¬(∃ c, suppress_greater_than = some c ∧
          max (origin_to_point_distance b1 la lo)
            (origin_to_point_distance b2 la lo) > c) ∧
        (origin_to_point_distance b1 la lo > 10000 ∧
          origin_to_point_distance b2 la lo > 10000 ∧
          origin_to_origin_distance b1 b2 < 10000)) := by
  constructor
  · intro b1 b2 warn supdiv sgt ig la lo hraw hnocap hheur
    have hranges := _intersect_ok_ranges b1 b2 ig la lo hraw
    have hd1 := get_haversine_distance_coords b1 la lo hranges.1 hranges.2
    have hd2 := get_haversine_distance_coords b2 la lo hranges.1 hranges.2
    have hd12 := get_haversine_distance_other b1 b2
    by_cases hflag : anyFlag warn supdiv sgt
    · have hLHS : get_intersect b1 b2 warn supdiv sgt ig =
          (if supdiv = true then .ok none
           else if warn = true then .error .probableDivergence
           else .ok (some (.pt la lo))) := by
        unfold get_intersect
        rw [hraw]
        simp only
        rw [if_neg (not_not_intro hflag)]
        simp only [hd1, hd2, hd12]
        rw [if_neg hnocap, if_pos hheur]
      rw [hLHS]
      cases supdiv
      · cases warn
        · simp only [if_neg (Bool.false_ne_true), if_pos hflag]
        · simp
      · simp
    · have hw : warn = false := by
        cases warn
        · rfl
        · exact absurd (Or.inl rfl) hflag
      have hs : supdiv = false := by
        cases supdiv
        · rfl
        · exact absurd (Or.inr (Or.inl rfl)) hflag
      subst hw hs
      have hLHS : get_intersect b1 b2 false false sgt ig =
          .ok (some (.tup la lo)) := by
        unfold get_intersect
        rw [hraw]
        simp only
        rw [if_pos hflag]
        rfl
      rw [hLHS]
      simp only [if_neg (Bool.false_ne_true), if_neg hflag]
  · intro b1 b2 warn supdiv sgt ig h
    rcases hr : _intersect b1 b2 ig with e | r
    · unfold get_intersect at h
      rw [hr] at h
      exact absurd h (by simp)
    · unfold get_intersect at h
      rw [hr] at h
      simp only at h
      by_cases hflag : anyFlag warn supdiv sgt
      · rw [if_neg (not_not_intro hflag)] at h
        rcases r with _ | ⟨la, lo⟩
        · exact absurd h (by simp)
        · simp only at h
          have hranges := _intersect_ok_ranges b1 b2 ig la lo hr
          have hd1 := get_haversine_distance_coords b1 la lo hranges.1 hranges.2
          have hd2 := get_haversine_distance_coords b2 la lo hranges.1 hranges.2
          have hd12 := get_haversine_distance_other b1 b2
          rw [hd1, hd2, hd12] at h
          simp only at h
          by_cases hcap : (∃ c, sgt = some c ∧
              max (origin_to_point_distance b1 la lo)
                (origin_to_point_distance b2 la lo) > c)
          · rw [if_pos hcap] at h
            exact absurd h (by simp)
          · rw [if_neg hcap] at h
            by_cases hheu : (origin_to_point_distance b1 la lo > 10000 ∧
                origin_to_point_distance b2 la lo > 10000 ∧
                origin_to_origin_distance b1 b2 < 10000)
            · rw [if_pos hheu] at h
              cases supdiv
              · cases warn
                · rw [if_neg (Bool.false_ne_true), if_neg (Bool.false_ne_true)] at h
                  exact absurd h (by simp)
                · exact ⟨rfl, rfl, la, lo, rfl, hcap, hheu⟩
              · rw [if_pos rfl] at h
                exact absurd h (by simp)
            · rw [if_neg hheu] at h
              exact absurd h (by simp)
      · rw [if_pos hflag] at h
        rcases r with _ | p <;> exact absurd h (by simp)

/-- Claim C3 (amended): every successful get_intersect result carries the
solver coordinates rounded to 5 decimal places; it is a Point object
exactly when some policy flag is truthy, and the raw coordinate tuple when
all policy flags are inactive. -/
theorem C3_success_value (b1 b2 : BearingLine)
    (warn_probable_divergence suppress_probable_divergence : Bool)
    (suppress_greater_than : Option ℝ) (ignore_errors : Bool) (v : GVal)
    (h : get_intersect b1 b2 warn_probable_divergence suppress_probable_divergence
      suppress_greater_than ignore_errors = .ok (some v)) :
    ∃ la lo, _intersect b1 b2 ignore_errors = .ok (some (la, lo)) ∧
      la = round5 (degrees (lat3 b1 b2)) ∧
      lo = round5 (degrees (-(lon3 b1 b2))) ∧
      (v = GVal.tup la lo ∨ v = GVal.pt la lo) ∧
      (v.isPt = true ↔ anyFlag warn_probable_divergence
        suppress_probable_divergence suppress_greater_than) := by
  rcases hr : _intersect b1 b2 ignore_errors with e | r
  · unfold get_intersect at h
    rw [hr] at h
    exact absurd h (by simp)
  · unfold get_intersect at h
    rw [hr] at h
    simp only at h
    by_cases hflag : anyFlag warn_probable_divergence suppress_probable_divergence
        suppress_greater_than
    · rw [if_neg (not_not_intro hflag)] at h
      rcases r with _ | ⟨la, lo⟩
      · exact absurd h (by simp)
      · simp only at h
        obtain ⟨hla, hlo⟩ := _intersect_ok_inv b1 b2 ignore_errors la lo hr
        have hranges := _intersect_ok_ranges b1 b2 ignore_errors la lo hr
        have hd1 := get_haversine_distance_coords b1 la lo hranges.1 hranges.2
        have hd2 := get_haversine_distance_coords b2 la lo hranges.1 hranges.2
        have hd12 := get_haversine_distance_other b1 b2
        rw [hd1, hd2, hd12] at h
        simp only at h
        refine ⟨la, lo, rfl, hla, hlo, ?_⟩
        by_cases hcap : (∃ c, suppress_greater_than = some c ∧
            max (origin_to_point_distance b1 la lo)
              (origin_to_point_distance b2 la lo) > c)
        · rw [if_pos hcap] at h
          exact absurd h (by simp)
        · rw [if_neg hcap] at h
          by_cases hheu : (origin_to_point_distance b1 la lo > 10000 ∧
              origin_to_point_distance b2 la lo > 10000 ∧
              origin_to_origin_distance b1 b2 < 10000)
          · rw [if_pos hheu] at h
            by_cases hsup : suppress_probable_divergence = true
            · rw [if_pos hsup] at h
              exact absurd h (by simp)
            · rw [if_neg hsup] at h
              by_cases hwarn : warn_probable_divergence = true
              · rw [if_pos hwarn] at h
                exact absurd h (by simp)
              · rw [if_neg hwarn] at h
                have hv : GVal.pt la lo = v := Option.some.inj (Except.ok.inj h)
                rw [← hv]
                exact ⟨Or.inr rfl, by simp [GVal.isPt, hflag]⟩
          · rw [if_neg hheu] at h
            have hv : GVal.pt la lo = v := Option.some.inj (Except.ok.inj h)
            rw [← hv]
            exact ⟨Or.inr rfl, by simp [GVal.isPt, hflag]⟩
    · rw [if_pos hflag] at h
      rcases r with _ | ⟨la, lo⟩
      · exact absurd h (by simp)
      · have hv : GVal.tup la lo = v := by
          have h2 := h
          simp only [Option.map] at h2
          exact Option.some.inj (Except.ok.inj h2)
        obtain ⟨hla, hlo⟩ := _intersect_ok_inv b1 b2 ignore_errors la lo hr
        rw [← hv]
        exact ⟨la, lo, rfl, hla, hlo, Or.inl rfl, by simp [GVal.isPt, hflag]⟩

/-! ## Concrete evaluations, pair A: a line due east from (0, 0) and a
line due north from (0, 90).  They meet at (0, 0) itself; the solver
output is the rounded pair (0, 0). -/

/-- Line at latitude 0, longitude 0, bearing 90 (east), declination 0. -/
def blA : BearingLine := ⟨0, 0, 90, 0⟩

/-- Line at latitude 0, longitude 90, bearing 0 (north), declination 0. -/
def blB : BearingLine := ⟨0, 90, 0, 0⟩

lemma blA_lat : latitude_radians blA = 0 := by
  unfold latitude_radians blA
  exact radians_zero

lemma blA_lon : longitude_radians blA = 0 := by
  unfold longitude_radians blA
  exact radians_zero

lemma blA_tbr : true_bearing_radians blA = π / 2 := by
  unfold true_bearing_radians true_bearing blA
  rw [show (90 : ℝ) + 0 = 90 by norm_num]
  exact radians_ninety

lemma blB_lat : latitude_radians blB = 0 := by
  unfold latitude_radians blB
  exact radians_zero

lemma blB_lon : longitude_radians blB = π / 2 := by
  unfold longitude_radians blB
  exact radians_ninety

lemma blB_tbr : true_bearing_radians blB = 0 := by
  unfold true_bearing_radians true_bearing blB
  rw [show (0 : ℝ) + 0 = 0 by norm_num]
  exact radians_zero

/-- Witness for C10: a BearingLine together with only a latitude value
hits the unbound-local fall-through. -/
theorem C10_dispatch_fallthrough_witness :
    get_haversine_distance blA (some 0) none (some blB) = .error .unboundLocal :=
  (C10_dispatch_fallthrough blA (some 0) none (some blB)).mpr
    ⟨by simp, Or.inr ⟨by simp, rfl⟩⟩

lemma sin_pi_div_four_nonneg : 0 ≤ Real.sin (π / 4) :=
  Real.sin_nonneg_of_nonneg_of_le_pi (by positivity) (by linarith [Real.pi_pos])

lemma notIdentical_A : ¬identicalOrigins blA blB := by
  rintro ⟨-, h⟩
  rw [blA_lon, blB_lon] at h
  have h0 := neg_inj.mp h
  have hπ : (0 : ℝ) < π := Real.pi_pos
  linarith

lemma dst12_A : dst12 blA blB = π / 2 := by
  unfold dst12
  rw [blA_lat, blB_lat, blA_lon, blB_lon]
  rw [show ((0 : ℝ) - 0) / 2 = 0 by norm_num, Real.sin_zero, Real.cos_zero]
  rw [show (-(0 : ℝ) - -(π / 2)) / 2 = π / 4 by ring]
  rw [show (0 : ℝ) ^ 2 + 1 * 1 * Real.sin (π / 4) ^ 2 = Real.sin (π / 4) ^ 2 by ring]
  rw [Real.sqrt_sq sin_pi_div_four_nonneg]
  rw [asin_safe_sin (π / 4) (by linarith [Real.pi_pos]) (by linarith [Real.pi_pos])]
  ring

lemma sin_cond_A : Real.sin (-(longitude_radians blB) - -(longitude_radians blA)) = -1 := by
  rw [blA_lon, blB_lon]
  rw [show -(π / 2) - -(0 : ℝ) = -(π / 2) by ring, Real.sin_neg, Real.sin_pi_div_two]

lemma crs12_A : crs12 blA blB = π / 2 := by
  have hc : Real.sin (-(longitude_radians blB) - -(longitude_radians blA)) < 0 := by
    rw [sin_cond_A]
    norm_num
  unfold crs12
  rw [if_pos hc, blA_lat, blB_lat, dst12_A, Real.sin_zero, Real.cos_zero]
  rw [show ((0 : ℝ) - 0 * Real.cos (π / 2)) / (Real.sin (π / 2) * 1) = 0 by
    rw [Real.sin_pi_div_two]; ring]
  exact acos_safe_zero

lemma crs21_A : crs21 blA blB = 3 * π / 2 := by
  have hc : Real.sin (-(longitude_radians blB) - -(longitude_radians blA)) < 0 := by
    rw [sin_cond_A]
    norm_num
  unfold crs21
  rw [if_pos hc, blA_lat, blB_lat, dst12_A, Real.sin_zero, Real.cos_zero]
  rw [show ((0 : ℝ) - 0 * Real.cos (π / 2)) / (Real.sin (π / 2) * 1) = 0 by
    rw [Real.sin_pi_div_two]; ring]
  rw [acos_safe_zero]
  ring

lemma floor_pi_ratio_half : ⌊π / (2 * π)⌋ = 0 := by
  have h : π / (2 * π) = 1 / 2 := by
    field_simp
    ring
  rw [h, Int.floor_eq_iff] <;> norm_num

lemma floor_pi_ratio_quarter : ⌊π / 2 / (2 * π)⌋ = 0 := by
  have h : π / 2 / (2 * π) = 1 / 4 := by
    field_simp
    ring
  rw [h, Int.floor_eq_iff] <;> norm_num

lemma floor_pi_ratio_five_quarters : ⌊5 * π / 2 / (2 * π)⌋ = 1 := by
  have h : 5 * π / 2 / (2 * π) = 5 / 4 := by
    field_simp
    ring
  rw [h, Int.floor_eq_iff] <;> norm_num

lemma ang1_A : ang1 blA blB = 0 := by
  unfold ang1
  rw [blA_tbr, crs12_A, show π / 2 - π / 2 + π = π by ring]
  rw [euclidean_modulo_of_floor _ _ 0 floor_pi_ratio_half]
  push_cast
  ring

lemma ang2_A : ang2 blA blB = -(π / 2) := by
  unfold ang2
  rw [blB_tbr, crs21_A, show 3 * π / 2 - 0 + π = 5 * π / 2 by ring]
  rw [euclidean_modulo_of_floor _ _ 1 floor_pi_ratio_five_quarters]
  push_cast
  ring

lemma abs_neg_pi_div_two : |(-(π / 2))| = π / 2 := by
  rw [abs_neg, abs_of_nonneg (by linarith [Real.pi_pos] : (0 : ℝ) ≤ π / 2)]

lemma ang3_A : ang3 blA blB = π / 2 := by
  unfold ang3
  rw [ang1_A, ang2_A, dst12_A, abs_zero, abs_neg_pi_div_two]
  rw [Real.cos_zero, Real.sin_zero, Real.cos_pi_div_two, Real.sin_pi_div_two]
  rw [show -(1 : ℝ) * 0 + 0 * 1 * 0 = 0 by ring]
  exact acos_safe_zero

lemma dst13_A : dst13 blA blB = 0 := by
  unfold dst13
  rw [ang1_A, ang2_A, ang3_A, dst12_A, abs_zero, abs_neg_pi_div_two]
  rw [Real.cos_zero, Real.sin_zero, Real.cos_pi_div_two, Real.sin_pi_div_two]
  rw [show (1 : ℝ) * 0 * 1 = 0 by ring, show (0 : ℝ) + 1 * 0 = 0 by ring]
  exact atan2_zero_zero

lemma lat3_A : lat3 blA blB = 0 := by
  unfold lat3
  rw [blA_lat, blA_tbr, dst13_A]
  rw [Real.sin_zero, Real.cos_zero]
  rw [show (0 : ℝ) * 1 + 1 * 0 * Real.cos (π / 2) = 0 by ring]
  exact asin_safe_zero

lemma dlon_A : dlon blA blB = 0 := by
  unfold dlon
  rw [blA_lat, blA_tbr, dst13_A, lat3_A]
  rw [Real.sin_zero, Real.cos_zero, Real.sin_pi_div_two]
  rw [show (1 : ℝ) * 0 * 1 = 0 by ring, show (1 : ℝ) - 0 * 0 = 1 by ring]
  exact atan2_zero_one

lemma lon3_A : lon3 blA blB = 0 := by
  unfold lon3
  rw [blA_lon, dlon_A, show -(0 : ℝ) - 0 + π = π by ring]
  rw [euclidean_modulo_of_floor _ _ 0 floor_pi_ratio_half]
  push_cast
  ring

lemma coords_A : intersectCoords blA blB = (0, 0) := by
  unfold intersectCoords
  rw [lat3_A, lon3_A, neg_zero, degrees_zero, round5_zero]

lemma intersect_A (suppress_errors : Bool) :
    _intersect blA blB suppress_errors = .ok (some (0, 0)) := by
  unfold _intersect
  rw [if_neg notIdentical_A]
  rw [ang1_A, ang2_A, Real.sin_zero, Real.sin_neg, Real.sin_pi_div_two]
  rw [if_neg (by norm_num), if_neg (by norm_num), coords_A]

/-- Distance from blA at (0,0) to the intersection (0,0): zero. -/
lemma otpd_A1 : origin_to_point_distance blA 0 0 = 0 := by
  unfold origin_to_point_distance haversineKm
  rw [blA_lat, blA_lon, radians_zero]
  rw [show ((0 : ℝ) - 0) / 2 = 0 by norm_num, Real.sin_zero, Real.cos_zero]
  rw [show min (1 : ℝ) (0 ^ 2 + 1 * 1 * 0 ^ 2) = 0 by norm_num]
  rw [Real.sqrt_zero, Real.arcsin_zero]
  ring

/-- Distance from blB at (0,90) to the intersection (0,0): a quarter
great circle, 2 * 6371 * pi / 4 kilometers. -/
lemma otpd_A2 : origin_to_point_distance blB 0 0 = 2 * 6371 * (π / 4) := by
  unfold origin_to_point_distance haversineKm
  rw [blB_lat, blB_lon, radians_zero]
  rw [show ((0 : ℝ) - 0) / 2 = 0 by norm_num, Real.sin_zero, Real.cos_zero]
  rw [show ((0 : ℝ) - π / 2) / 2 = -(π / 4) by ring, Real.sin_neg]
  rw [show (0 : ℝ) ^ 2 + 1 * 1 * (-Real.sin (π / 4)) ^ 2 = Real.sin (π / 4) ^ 2 by ring]
  rw [min_eq_right (Real.sin_sq_le_one (π / 4))]
  rw [Real.sqrt_sq sin_pi_div_four_nonneg]
  rw [Real.arcsin_sin (by linarith [Real.pi_pos]) (by linarith [Real.pi_pos])]

/-- With no truthy policy flag, get_intersect on pair A returns the raw
coordinate tuple unchanged. -/
lemma get_intersect_A_inactive :
    get_intersect blA blB false false none false = .ok (some (.tup 0 0)) := by
  unfold get_intersect
  rw [intersect_A false]
  simp only
  rw [if_pos (by simp [anyFlag, sgtTruthy])]
  rfl

/-- suppress_greater_than = 0 is falsy inside any([...]), so with both
divergence flags clear the policy layer is skipped entirely. -/
lemma get_intersect_A_sgt_zero :
    get_intersect blA blB false false (some 0) false = .ok (some (.tup 0 0)) := by
  unfold get_intersect
  rw [intersect_A false]
  simp only
  rw [if_pos (by simp [anyFlag, sgtTruthy])]
  rfl

/-- Witness for C1 at pair A: the origins differ, and the solver result is
given by the claimed degeneracy cascade. -/
theorem C1_degeneracy_order_witness :
    ¬identicalOrigins blA blB ∧
    _intersect blA blB false =
      (if Real.sin (ang1 blA blB) = 0 ∧ Real.sin (ang2 blA blB) = 0 then
        (if false then .ok none else .error .infiniteIntersection)
      else if Real.sin (ang1 blA blB) * Real.sin (ang2 blA blB) < 0 then
        (if false then .ok none else .error .ambiguousIntersection)
      else .ok (some (intersectCoords blA blB))) :=
  ⟨notIdentical_A, C1_degeneracy_order blA blB false notIdentical_A⟩

/-- Witness for C2: a pair with coinciding origins raises
IdenticalInputPointError, and pair A with distinct origins does not. -/
theorem C2_identical_origins_witness :
    _intersect blA blA false = .error .identicalInputPoint ∧
    _intersect blA blB false ≠ .error .identicalInputPoint := by
  constructor
  · have h := (C2_identical_origins blA blA false).1 ⟨rfl, rfl⟩
    simpa using h
  · have hne : ¬(latitude_radians blA = latitude_radians blB ∧
        longitude_radians blA = longitude_radians blB) := by
      rintro ⟨-, h⟩
      rw [blA_lon, blB_lon] at h
      have hπ : (0 : ℝ) < π := Real.pi_pos
      linarith
    exact (C2_identical_origins blA blB false).2 hne

/-- Claim C3 counterexample: with every policy flag inactive, a successful
get_intersect result is the raw coordinate tuple, not a Point object. -/
theorem C3_counterexample :
    get_intersect blA blB false false none false = .ok (some (.tup 0 0)) ∧
    GVal.isPt (GVal.tup 0 0) = false :=
  ⟨get_intersect_A_inactive, rfl⟩

/-- Witness for C3 at pair A with all policy flags inactive. -/
theorem C3_success_value_witness :
    get_intersect blA blB false false none false = .ok (some (.tup 0 0)) ∧
    (∃ la lo, _intersect blA blB false = .ok (some (la, lo)) ∧
      la = round5 (degrees (lat3 blA blB)) ∧
      lo = round5 (degrees (-(lon3 blA blB))) ∧
      (GVal.tup 0 0 = GVal.tup la lo ∨ GVal.tup 0 0 = GVal.pt la lo) ∧
      (GVal.isPt (GVal.tup 0 0) = true ↔ anyFlag false false none)) :=
  ⟨get_intersect_A_inactive,
    C3_success_value blA blB false false none false (.tup 0 0) get_intersect_A_inactive⟩

/-- Claim C4 counterexample: suppress_greater_than = 0 is a non-None
numeric cap and the larger origin-to-intersection distance exceeds it,
yet get_intersect (with both divergence flags clear) returns the raw
tuple instead of no result, because 0 is falsy inside any([...]). -/
theorem C4_counterexample :
    _intersect blA blB false = .ok (some (0, 0)) ∧
    max (origin_to_point_distance blA 0 0) (origin_to_point_distance blB 0 0) > 0 ∧
    get_intersect blA blB false false (some 0) false = .ok (some (.tup 0 0)) ∧
    (Except.ok (some (GVal.tup (0 : ℝ) 0)) : Except PolicyError (Option GVal)) ≠
      .ok none := by
  refine ⟨intersect_A false, ?_, get_intersect_A_sgt_zero, by simp⟩
  have h2 : origin_to_point_distance blB 0 0 > 0 := by
    rw [otpd_A2]
    positivity
  exact lt_of_lt_of_le h2 (le_max_right _ _)

/-- Witness for C4 (amended) at pair A with cap 1 kilometer. -/
theorem C4_range_cap_witness :
    _intersect blA blB false = .ok (some (0, 0)) ∧
    (1 : ℝ) ≠ 0 ∧
    max (origin_to_point_distance blA 0 0) (origin_to_point_distance blB 0 0) > 1 ∧
    get_intersect blA blB false false (some 1) false = .ok none := by
  have hπ : (3 : ℝ) < π := Real.pi_gt_three
  have hcap : max (origin_to_point_distance blA 0 0)
      (origin_to_point_distance blB 0 0) > 1 := by
    have h2 : origin_to_point_distance blB 0 0 > 1 := by
      rw [otpd_A2]
      nlinarith
    exact lt_of_lt_of_le h2 (le_max_right _ _)
  exact ⟨intersect_A false, by norm_num, hcap,
    C4_range_cap blA blB false false 1 false 0 0 (intersect_A false)
      (Or.inl (by norm_num)) hcap⟩

/-! ## Concrete evaluations, pair B: two lines heading due north from
(0, 0) and (0, 60).  They meet at the north pole (90, 0), a quarter great
circle (about 10007 km) from each origin, while the origins are only about
6671 km apart — exactly the probable-divergence configuration. -/

/-- Line at latitude 0, longitude 0, bearing 0 (north), declination 0. -/
def blC : BearingLine := ⟨0, 0, 0, 0⟩

/-- Line at latitude 0, longitude 60, bearing 0 (north), declination 0. -/
def blD : BearingLine := ⟨0, 60, 0, 0⟩

lemma blC_lat : latitude_radians blC = 0 := by
  unfold latitude_radians blC
  exact radians_zero

lemma blC_lon : longitude_radians blC = 0 := by
  unfold longitude_radians blC
  exact radians_zero

lemma blC_tbr : true_bearing_radians blC = 0 := by
  unfold true_bearing_radians true_bearing blC
  rw [show (0 : ℝ) + 0 = 0 by norm_num]
  exact radians_zero

lemma blD_lat : latitude_radians blD = 0 := by
  unfold latitude_radians blD
  exact radians_zero

lemma blD_lon : longitude_radians blD = π / 3 := by
  unfold longitude_radians blD
  exact radians_sixty

lemma blD_tbr : true_bearing_radians blD = 0 := by
  unfold true_bearing_radians true_bearing blD
  rw [show (0 : ℝ) + 0 = 0 by norm_num]
  exact radians_zero

lemma sin_pi_div_six_nonneg : 0 ≤ Real.sin (π / 6) :=
  Real.sin_nonneg_of_nonneg_of_le_pi (by positivity) (by linarith [Real.pi_pos])

lemma notIdentical_B : ¬identicalOrigins blC blD := by
  rintro ⟨-, h⟩
  rw [blC_lon, blD_lon] at h
  have h0 := neg_inj.mp h
  have hπ : (0 : ℝ) < π := Real.pi_pos
  linarith

lemma dst12_B : dst12 blC blD = π / 3 := by
  unfold dst12
  rw [blC_lat, blD_lat, blC_lon, blD_lon]
  rw [show ((0 : ℝ) - 0) / 2 = 0 by norm_num, Real.sin_zero, Real.cos_zero]
  rw [show (-(0 : ℝ) - -(π / 3)) / 2 = π / 6 by ring]
  rw [show (0 : ℝ) ^ 2 + 1 * 1 * Real.sin (π / 6) ^ 2 = Real.sin (π / 6) ^ 2 by ring]
  rw [Real.sqrt_sq sin_pi_div_six_nonneg]
  rw [asin_safe_sin (π / 6) (by linarith [Real.pi_pos]) (by linarith [Real.pi_pos])]
  ring

lemma sin_cond_B : Real.sin (-(longitude_radians blD) - -(longitude_radians blC)) < 0 := by
  rw [blC_lon, blD_lon]
  rw [show -(π / 3) - -(0 : ℝ) = -(π / 3) by ring, Real.sin_neg]
  have hpos : 0 < Real.sin (π / 3) :=
    Real.sin_pos_of_pos_of_lt_pi (by positivity) (by linarith [Real.pi_pos])
  linarith

lemma crs12_B : crs12 blC blD = π / 2 := by
  unfold crs12
  rw [if_pos sin_cond_B, blC_lat, blD_lat, dst12_B, Real.sin_zero, Real.cos_zero]
  rw [show ((0 : ℝ) - 0 * Real.cos (π / 3)) = 0 by ring, zero_div]
  exact acos_safe_zero

lemma crs21_B : crs21 blC blD = 3 * π / 2 := by
  unfold crs21
  rw [if_pos sin_cond_B, blC_lat, blD_lat, dst12_B, Real.sin_zero, Real.cos_zero]
  rw [show ((0 : ℝ) - 0 * Real.cos (π / 3)) = 0 by ring, zero_div]
  rw [acos_safe_zero]
  ring

lemma ang1_B : ang1 blC blD = -(π / 2) := by
  unfold ang1
  rw [blC_tbr, crs12_B, show (0 : ℝ) - π / 2 + π = π / 2 by ring]
  rw [euclidean_modulo_of_floor _ _ 0 floor_pi_ratio_quarter]
  push_cast
  ring

lemma ang2_B : ang2 blC blD = -(π / 2) := by
  unfold ang2
  rw [blD_tbr, crs21_B, show 3 * π / 2 - 0 + π = 5 * π / 2 by ring]
  rw [euclidean_modulo_of_floor _ _ 1 floor_pi_ratio_five_quarters]
  push_cast
  ring

lemma ang3_B : ang3 blC blD = π / 3 := by
  unfold ang3
  rw [ang1_B, ang2_B, dst12_B, abs_neg_pi_div_two]
  rw [Real.cos_pi_div_two, Real.sin_pi_div_two]
  rw [show -(0 : ℝ) * 0 + 1 * 1 * Real.cos (π / 3) = Real.cos (π / 3) by ring]
  exact acos_safe_cos (π / 3) (by positivity) (by linarith [Real.pi_pos])

lemma dst13_B : dst13 blC blD = π / 2 := by
  unfold dst13
  rw [ang1_B, ang2_B, ang3_B, dst12_B, abs_neg_pi_div_two]
  rw [Real.cos_pi_div_two, Real.sin_pi_div_two]
  rw [show Real.sin (π / 3) * 1 * 1 = Real.sin (π / 3) by ring]
  rw [show (0 : ℝ) + 0 * Real.cos (π / 3) = 0 by ring]
  exact atan2_pos_zero _
    (Real.sin_pos_of_pos_of_lt_pi (by positivity) (by linarith [Real.pi_pos]))

lemma lat3_B : lat3 blC blD = π / 2 := by
  unfold lat3
  rw [blC_lat, blC_tbr, dst13_B]
  rw [Real.sin_zero, Real.cos_zero, Real.sin_pi_div_two, Real.cos_pi_div_two]
  rw [show (0 : ℝ) * 0 + 1 * 1 * 1 = 1 by ring]
  exact asin_safe_one

lemma dlon_B : dlon blC blD = 0 := by
  unfold dlon
  rw [blC_lat, blC_tbr, dst13_B, lat3_B]
  rw [Real.sin_zero, Real.cos_zero, Real.sin_pi_div_two, Real.cos_pi_div_two]
  rw [show (0 : ℝ) * 1 * 1 = 0 by ring, show (0 : ℝ) - 0 * 1 = 0 by ring]
  exact atan2_zero_zero

lemma lon3_B : lon3 blC blD = 0 := by
  unfold lon3
  rw [blC_lon, dlon_B, show -(0 : ℝ) - 0 + π = π by ring]
  rw [euclidean_modulo_of_floor _ _ 0 floor_pi_ratio_half]
  push_cast
  ring

lemma coords_B : intersectCoords blC blD = (90, 0) := by
  unfold intersectCoords
  rw [lat3_B, lon3_B, neg_zero, degrees_zero, degrees_pi_div_two, round5_zero,
    round5_ninety]

lemma intersect_B (suppress_errors : Bool) :
    _intersect blC blD suppress_errors = .ok (some (90, 0)) := by
  unfold _intersect
  rw [if_neg notIdentical_B]
  rw [ang1_B, ang2_B, Real.sin_neg, Real.sin_pi_div_two]
  rw [if_neg (by norm_num), if_neg (by norm_num), coords_B]

/-- Distance from blC at (0,0) to the pole: a quarter great circle. -/
lemma otpd_B1 : origin_to_point_distance blC 90 0 = 2 * 6371 * (π / 4) := by
  unfold origin_to_point_distance haversineKm
  rw [blC_lat, blC_lon, radians_ninety, radians_zero]
  rw [show (π / 2 - 0) / 2 = π / 4 by ring, show ((0 : ℝ) - 0) / 2 = 0 by norm_num]
  rw [Real.sin_zero, Real.cos_zero, Real.cos_pi_div_two]
  rw [show Real.sin (π / 4) ^ 2 + 1 * 0 * 0 ^ 2 = Real.sin (π / 4) ^ 2 by ring]
  rw [min_eq_right (Real.sin_sq_le_one (π / 4))]
  rw [Real.sqrt_sq sin_pi_div_four_nonneg]
  rw [Real.arcsin_sin (by linarith [Real.pi_pos]) (by linarith [Real.pi_pos])]

/-- Distance from blD at (0,60) to the pole: also a quarter great circle. -/
lemma otpd_B2 : origin_to_point_distance blD 90 0 = 2 * 6371 * (π / 4) := by
  unfold origin_to_point_distance haversineKm
  rw [blD_lat, blD_lon, radians_ninety, radians_zero]
  rw [show (π / 2 - 0) / 2 = π / 4 by ring]
  rw [Real.cos_zero, Real.cos_pi_div_two]
  rw [show Real.sin (π / 4) ^ 2 + 1 * 0 * Real.sin ((0 - π / 3) / 2) ^ 2 =
    Real.sin (π / 4) ^ 2 by ring]
  rw [min_eq_right (Real.sin_sq_le_one (π / 4))]
  rw [Real.sqrt_sq sin_pi_div_four_nonneg]
  rw [Real.arcsin_sin (by linarith [Real.pi_pos]) (by linarith [Real.pi_pos])]

/-- Distance between the two origins: a sixth of a great circle. -/
lemma otod_B : origin_to_origin_distance blC blD = 2 * 6371 * (π / 6) := by
  unfold origin_to_origin_distance haversineKm
  rw [blC_lat, blC_lon, blD_lat, blD_lon]
  rw [show ((0 : ℝ) - 0) / 2 = 0 by norm_num, show (π / 3 - 0) / 2 = π / 6 by ring]
  rw [Real.sin_zero, Real.cos_zero]
  rw [show (0 : ℝ) ^ 2 + 1 * 1 * Real.sin (π / 6) ^ 2 = Real.sin (π / 6) ^ 2 by ring]
  rw [min_eq_right (Real.sin_sq_le_one (π / 6))]
  rw [Real.sqrt_sq sin_pi_div_six_nonneg]
  rw [Real.arcsin_sin (by linarith [Real.pi_pos]) (by linarith [Real.pi_pos])]

/-- The quarter-circle distance exceeds the 10000 km heuristic threshold. -/
lemma quarter_circle_gt : (2 : ℝ) * 6371 * (π / 4) > 10000 := by
  have h := Real.pi_gt_d4
  nlinarith

/-- The origin separation is below the 10000 km heuristic threshold. -/
lemma sixth_circle_lt : (2 : ℝ) * 6371 * (π / 6) < 10000 := by
  have h := Real.pi_lt_d4
  nlinarith

/-- With no truthy policy flag, get_intersect on pair B returns the raw
tuple even though the probable-divergence configuration holds. -/
lemma get_intersect_B_inactive :
    get_intersect blC blD false false none false = .ok (some (.tup 90 0)) := by
  unfold get_intersect
  rw [intersect_B false]
  simp only
  rw [if_pos (by simp [anyFlag, sgtTruthy])]
  rfl

/-- Claim C5 counterexample: the raw intersection exists, no cap is set,
both origin-to-intersection distances exceed 10000 km and the origins are
closer than 10000 km, warn and suppress are both false — but get_intersect
returns the raw coordinate tuple, not the computed Point the claim
promises (the falsy flags skip the policy layer entirely). -/
theorem C5_counterexample :
    _intersect blC blD false = .ok (some (90, 0)) ∧
    origin_to_point_distance blC 90 0 > 10000 ∧
    origin_to_point_distance blD 90 0 > 10000 ∧
    origin_to_origin_distance blC blD < 10000 ∧
    get_intersect blC blD false false none false = .ok (some (.tup 90 0)) ∧
    GVal.isPt (GVal.tup 90 0) = false := by
  refine ⟨intersect_B false, ?_, ?_, ?_, get_intersect_B_inactive, rfl⟩
  · rw [otpd_B1]
    exact quarter_circle_gt
  · rw [otpd_B2]
    exact quarter_circle_gt
  · rw [otod_B]
    exact sixth_circle_lt

/-- Witness for C5 (amended) at pair B with warn set: the heuristic holds
and get_intersect raises ProbableDivergenceError. -/
theorem C5_probable_divergence_witness :
    _intersect blC blD false = .ok (some (90, 0)) ∧
    origin_to_point_distance blC 90 0 > 10000 ∧
    origin_to_point_distance blD 90 0 > 10000 ∧
    origin_to_origin_distance blC blD < 10000 ∧
    get_intersect blC blD true false none false = .error .probableDivergence := by
  have h1 : origin_to_point_distance blC 90 0 > 10000 := by
    rw [otpd_B1]
    exact quarter_circle_gt
  have h2 : origin_to_point_distance blD 90 0 > 10000 := by
    rw [otpd_B2]
    exact quarter_circle_gt
  have h12 : origin_to_origin_distance blC blD < 10000 := by
    rw [otod_B]
    exact sixth_circle_lt
  have hnocap : ¬(∃ c, (none : Option ℝ) = some c ∧
      max (origin_to_point_distance blC 90 0)
        (origin_to_point_distance blD 90 0) > c) := by
    rintro ⟨c, hc, -⟩
    exact Option.noConfusion hc
  have h := C5_probable_divergence.1 blC blD true false none false 90 0
    (intersect_B false) hnocap ⟨h1, h2, h12⟩
  refine ⟨intersect_B false, h1, h2, h12, ?_⟩
  simpa using h

end Bearings
